import Mathlib

/-!
Verification of the MRMS radar fetch-cache-transform pipeline (`main.py`).

The development shallowly embeds the pipeline of the radar weather service:
the retrying fetcher (`safe_download`), the freshness-based cache gate
(`download_and_extract`), and the grid-to-JSON transform (`convert_to_json`
with its variable selection, stride-20 downsampling, NaN replacement,
validity filter, longitude normalization and timestamp extraction).

Numeric cell values are modelled by `GVal`, a tagged union distinguishing
NaN and the two infinities from finite values; finite float arithmetic in
the relevant code paths is exact (subtraction of 360, comparison with -50),
so finite values are embedded as rationals.
-/

namespace Radar

/-- Cell value of the decoded grid: an IEEE-754 double is either NaN, one of
the two infinities, or a finite value (embedded as a rational; every
operation the transform performs on finite cells is exact). -/
inductive GVal where
  | nan
  | posInf
  | negInf
  | num (q : ℚ)
deriving DecidableEq

/-- Largest finite IEEE-754 double, `1.7976931348623157e308`; the value
`numpy.nan_to_num` substitutes for a positive infinity (and its negation
for a negative infinity). -/
def FLOAT64_MAX : ℚ := 17976931348623157 * 10 ^ 292

/-- Embeds `numpy.nan_to_num` with default arguments, as applied at
`main.py` line 86: NaN becomes 0, positive infinity becomes the largest
finite double, negative infinity its negation, finite values unchanged. -/
def nan_to_num : GVal → ℚ
  | GVal.nan => 0
  | GVal.posInf => FLOAT64_MAX
  | GVal.negInf => -FLOAT64_MAX
  | GVal.num q => q

/-- Embeds the longitude fix of `main.py` line 93:
`lon_fixed = float(lo - 360 if lo > 180 else lo)`. -/
def fixLon (lo : ℚ) : ℚ := if lo > 180 then lo - 360 else lo

/-- Boolean prefix test on character lists (`as` is a leading segment of
`bs`); auxiliary for the substring test below. -/
def leadsWith : List Char → List Char → Bool
  | [], _ => true
  | _ :: _, [] => false
  | a :: as, b :: bs => a == b && leadsWith as bs

/-- Boolean substring test on character lists, embedding the Python
`pat in s` membership test on strings. -/
def containsSub (pat : List Char) : List Char → Bool
  | [] => pat.isEmpty
  | b :: bs => leadsWith pat (b :: bs) || containsSub pat bs

/-- Predicate of the generator on `main.py` line 76:
`"Reflectivity" in v or "DZ" in v` (case-sensitive substring tests). -/
def matchesRefl (v : String) : Bool :=
  containsSub "Reflectivity".toList v.toList || containsSub "DZ".toList v.toList

/-- Embeds the variable selection of `main.py` line 76:
`next((v for v in ds.data_vars if "Reflectivity" in v or "DZ" in v), list(ds.data_vars.keys())[0])`.
The first name passing `matchesRefl` wins; otherwise the first name in
insertion order; `none` models the `IndexError` the eagerly evaluated
default raises on an empty variable set. -/
def select_var (vars : List String) : Option String :=
  match vars.find? matchesRefl with
  | some v => some v
  | none => vars.head?

/-- Time coordinate of the decoded grid. `item_val` models the rendering
`str(ds.time.values.item())`, which may raise (modelled by `Except.error`);
`fallback_val` models the total fallback rendering `str(ds.time.values)`. -/
structure TimeCoord where
  item_val : Except String String
  fallback_val : String

/-- Decoded grid as the transform reads it: variable names in insertion
order, the two coordinate axes, per-variable cell data (indexed by
latitude index then longitude index) and per-variable attributes, and an
optional time coordinate. -/
structure Grid where
  data_vars : List String
  latitude : List ℚ
  longitude : List ℚ
  data : String → Nat → Nat → GVal
  units : String → Option String
  long_name : String → Option String
  time : Option TimeCoord

/-- One sampled grid cell of the output payload (`main.py` line 94). -/
structure RadarPoint where
  lat : ℚ
  lon : ℚ
  value : ℚ
deriving DecidableEq

/-- Metadata block of the output payload (`main.py` lines 105-109). -/
structure Metadata where
  units : String
  long_name : String
  source : String
deriving DecidableEq

/-- Output payload of the transform (`main.py` lines 103-111). -/
structure RadarPayload where
  timestamp : String
  metadata : Metadata
  points : List RadarPoint
deriving DecidableEq

/-- Fixed remote source URL (`main.py` line 27). -/
def MRMS_URL : String :=
  "https://mrms.ncep.noaa.gov/2D/ReflectivityAtLowestAltitude/MRMS_ReflectivityAtLowestAltitude.latest.grib2.gz"

/-- Number of indices selected by the Python slice `[::20]` from a list of
length `n`: the indices `0, 20, 40, ...` below `n`. -/
def strideCount (n : Nat) : Nat := (n + 19) / 20

/-- Embeds the Python slice `xs[::20]` (stride 20 starting at index 0),
as applied to the coordinate arrays on `main.py` lines 89-90. -/
def sample20 (xs : List ℚ) : List ℚ :=
  (List.range (strideCount xs.length)).map fun k => xs.getD (20 * k) 0

/-- Embeds the point-construction loop of `main.py` lines 88-94: the outer
loop enumerates `lat[::20]` (index `i`, value `la`), the inner loop
enumerates `lon[::20]` (index `j`, value `lo`); the cell value is
`values[i, j]` of the stride-20-sliced variable, which is cell
`(20*i, 20*j)` of the full grid, passed through `nan_to_num`; a point is
appended iff `val > -50`, with the longitude fix applied. -/
def convert_points (g : Grid) (v : String) : List RadarPoint :=
  (List.range (sample20 g.latitude).length).flatMap fun i =>
    (List.range (sample20 g.longitude).length).filterMap fun j =>
      if nan_to_num (g.data v (20 * i) (20 * j)) > -50 then
        some { lat := (sample20 g.latitude).getD i 0
               lon := fixLon ((sample20 g.longitude).getD j 0)
               value := nan_to_num (g.data v (20 * i) (20 * j)) }
      else none

/-- Embeds the timestamp extraction of `main.py` lines 96-101: empty string
when no time coordinate exists; otherwise the `item()` rendering, falling
back to the plain rendering when `item()` raises. -/
def timestampOf : Option TimeCoord → String
  | none => ""
  | some t =>
    match t.item_val with
    | Except.ok s => s
    | Except.error _ => t.fallback_val

/-- Embeds `convert_to_json` (`main.py` lines 71-117). The `persist`
argument models the outcome of the unguarded `json.dump` write to
`reflectivity.json` (lines 113-114): the write is attempted after the
payload is built, and an exception from it propagates out of the function.
An empty variable set makes the eagerly evaluated selection default raise
`IndexError("list index out of range")`. -/
def convert_to_json (g : Grid) (persist : Except String Unit) :
    Except String RadarPayload :=
  match select_var g.data_vars with
  | none => Except.error "list index out of range"
  | some var_name =>
    let data : RadarPayload :=
      { timestamp := timestampOf g.time
        metadata :=
          { units := (g.units var_name).getD ""
            long_name := (g.long_name var_name).getD "Reflectivity at Lowest Altitude"
            source := MRMS_URL }
        points := convert_points g var_name }
    match persist with
    | Except.ok _ => Except.ok data
    | Except.error e => Except.error e

/-- HTTP response of the endpoint. -/
structure Response where
  status : Nat
  payload : Option RadarPayload
  error : Option String
deriving DecidableEq

/-- Embeds the `/radar` handler (`main.py` lines 120-128): a successful
pipeline result is returned with status 200, any exception is caught and
returned as `{"error": str(e)}` with status 500. -/
def get_radar (result : Except String RadarPayload) : Response :=
  match result with
  | Except.ok d => { status := 200, payload := some d, error := none }
  | Except.error e => { status := 500, payload := none, error := some e }

/-- Outcome of the cache gate inside `download_and_extract`. -/
inductive CacheAction where
  | useCache
  | refetch
deriving DecidableEq

/-- Embeds the cache gate of `download_and_extract` (`main.py` lines
54-63): when the decoded file exists and its age (now minus modification
time) is under 900 seconds, the cached file is used and the function
returns without fetching or extracting; otherwise it falls through to
`safe_download` and extraction. -/
def download_and_extract (fileExists : Bool) (age : ℚ) : CacheAction :=
  if fileExists then
    if age < 900 then CacheAction.useCache else CacheAction.refetch
  else CacheAction.refetch

/-- Behaviour of one download attempt of `safe_download` (`main.py` lines
38-49), as observed at the destination file:
`connectFail` models a failure before the destination is opened
(`requests.get` raising or `raise_for_status` firing) - the file is not
touched; `streamFail` models `open(GRIB_GZ, "wb")` succeeding (truncating
the destination) followed by chunks being written and then a mid-stream
failure, leaving exactly `written` behind; `streamOk` models a completed
download leaving `written`. -/
inductive AttemptSpec where
  | connectFail (err : String)
  | streamFail (written : List Nat) (err : String)
  | streamOk (written : List Nat)

/-- Destination-file content after one attempt, given the content before
it (`none` models an absent file). -/
def attemptFile (file : Option (List Nat)) : AttemptSpec → Option (List Nat)
  | AttemptSpec.connectFail _ => file
  | AttemptSpec.streamFail w _ => some w
  | AttemptSpec.streamOk w => some w

/-- Error raised by one attempt (`none` when the attempt succeeds). -/
def attemptErr : AttemptSpec → Option String
  | AttemptSpec.connectFail e => some e
  | AttemptSpec.streamFail _ e => some e
  | AttemptSpec.streamOk _ => none

/-- Retry loop of `safe_download` (`main.py` lines 37-51): `fuel` attempts
remain, `k` is the index of the next attempt, `file` the destination
content. A successful attempt returns immediately; a failed attempt is
caught and the loop continues; when the budget is exhausted the fixed
exception message (line 51, emoji prefix elided) is raised. -/
def downloadLoop (att : Nat → AttemptSpec) :
    Nat → Nat → Option (List Nat) → Option (List Nat) × Except String Unit
  | 0, _, file => (file, Except.error "Download failed after 3 attempts")
  | fuel + 1, k, file =>
    match attemptErr (att k), attemptFile file (att k) with
    | none, file2 => (file2, Except.ok ())
    | some _, file2 => downloadLoop att fuel (k + 1) file2

/-- Embeds `safe_download` (`main.py` lines 33-51): `for attempt in
range(3)` with the attempt behaviours given by `att`, starting from
destination content `file`; returns the final destination content and the
overall result. -/
def safe_download (att : Nat → AttemptSpec) (file : Option (List Nat)) :
    Option (List Nat) × Except String Unit :=
  downloadLoop att 3 0 file

/-- Index pairs `(i, j)` of the stride-20 sample of the grid, in row-major
order (latitude index outer, longitude index inner). Specification-side
description of the iteration space of the loop on lines 89-90. -/
def sampled_pairs (g : Grid) : List (Nat × Nat) :=
  (List.range (strideCount g.latitude.length)).flatMap fun i =>
    (List.range (strideCount g.longitude.length)).map fun j => (i, j)

/-- Sampled index pairs whose (NaN-replaced) cell value passes the
strictly-greater-than-minus-50 validity filter. -/
def kept_pairs (g : Grid) (v : String) : List (Nat × Nat) :=
  (sampled_pairs g).filter fun ij =>
    decide (nan_to_num (g.data v (20 * ij.1) (20 * ij.2)) > -50)

/-- Output point for a sampled index pair: coordinates read from the full
axes at the unstrided indices, longitude normalized, value NaN-replaced. -/
def mk_point (g : Grid) (v : String) (ij : Nat × Nat) : RadarPoint :=
  { lat := g.latitude.getD (20 * ij.1) 0
    lon := fixLon (g.longitude.getD (20 * ij.2) 0)
    value := nan_to_num (g.data v (20 * ij.1) (20 * ij.2)) }

/-- Specification-side description of the output point list, following the
wording of the spec: the retained sampled cells in row-major order, each
rendered by `mk_point`. -/
def spec_points (g : Grid) (v : String) : List RadarPoint :=
  (kept_pairs g v).map (mk_point g v)

/-- Small one-cell test grid with the given cell value; latitude 10,
longitude 190, one matching variable name. -/
def mkTestGrid (cell : GVal) : Grid :=
  { data_vars := ["DZ_LOWALT"]
    latitude := [10]
    longitude := [190]
    data := fun _ _ _ => cell
    units := fun _ => some "dBZ"
    long_name := fun _ => none
    time := none }

/-- Test grid whose single raw longitude is exactly 180. -/
def g180 : Grid :=
  { mkTestGrid (GVal.num 5) with longitude := [180] }

/-- Test grid with an empty variable set. -/
def gEmptyVars : Grid :=
  { mkTestGrid (GVal.num 5) with data_vars := [] }

/-- Test grid carrying a time coordinate whose `item()` rendering raises
and whose fallback rendering is `"fallback-ts"`. -/
def gTime : Grid :=
  { mkTestGrid (GVal.num 5) with
      time := some { item_val := Except.error "boom2", fallback_val := "fallback-ts" } }

/-- Attempt stream where every attempt fails before touching the file,
with message `"boom"`. -/
def attBoom : Nat → AttemptSpec := fun _ => AttemptSpec.connectFail "boom"

/-- Attempt stream where every attempt fails before touching the file,
with message `"crash"`. -/
def attCrash : Nat → AttemptSpec := fun _ => AttemptSpec.connectFail "crash"

/-- Attempt stream whose first attempt truncates the destination, writes
the partial content `[1]` and then fails; the remaining attempts fail
before touching the file. -/
def attPartial : Nat → AttemptSpec := fun k =>
  if k = 0 then AttemptSpec.streamFail [1] "IncompleteRead"
  else AttemptSpec.connectFail "ConnectionError"

/-! ## Helper lemmas -/

theorem strideCount_mul_lt {j L : Nat} (h : j < strideCount L) : 20 * j < L := by
  have h2 : 20 * (j + 1) ≤ 20 * ((L + 19) / 20) :=
    Nat.mul_le_mul_left 20 (by simpa [strideCount] using h)
  have h3 : 20 * ((L + 19) / 20) ≤ L + 19 := by
    calc 20 * ((L + 19) / 20) = (L + 19) / 20 * 20 := Nat.mul_comm _ _
    _ ≤ L + 19 := Nat.div_mul_le_self _ _
  omega

theorem sample20_length (xs : List ℚ) :
    (sample20 xs).length = strideCount xs.length := by
  simp [sample20]

theorem sample20_getD {xs : List ℚ} {i : Nat} (h : i < strideCount xs.length) :
    (sample20 xs).getD i 0 = xs.getD (20 * i) 0 := by
  rw [sample20, List.getD_eq_getElem?_getD, List.getElem?_map,
    List.getElem?_range (by simpa using h)]
  simp [List.getD_eq_getElem?_getD]

theorem getD_mem {α : Type} {l : List α} {i : Nat} {d : α} (h : i < l.length) :
    l.getD i d ∈ l := by
  rw [List.getD_eq_getElem?_getD, List.getElem?_eq_getElem h]
  exact List.getElem_mem h

theorem filterMap_ite {α β : Type} (p : α → Prop) [DecidablePred p]
    (f : α → β) (l : List α) :
    l.filterMap (fun a => if p a then some (f a) else none) =
      (l.filter fun a => decide (p a)).map f := by
  induction l with
  | nil => rfl
  | cons a as ih =>
    by_cases h : p a <;> simp [List.filterMap_cons, List.filter_cons, h, ih]

theorem filter_over_flatMap {α β : Type} (l : List α) (f : α → List β)
    (p : β → Bool) :
    (l.flatMap f).filter p = l.flatMap fun a => (f a).filter p := by
  induction l with
  | nil => rfl
  | cons a as ih => simp [List.flatMap_cons, List.filter_append, ih]

theorem filter_over_map {α β : Type} (f : α → β) (p : β → Bool) (l : List α) :
    (l.map f).filter p = (l.filter fun a => p (f a)).map f := by
  induction l with
  | nil => rfl
  | cons a as ih =>
    simp only [List.map_cons, List.filter_cons]
    cases h : p (f a) <;> simp [h, ih]

theorem mem_sampled_pairs {g : Grid} {i j : Nat} :
    (i, j) ∈ sampled_pairs g ↔
      i < strideCount g.latitude.length ∧ j < strideCount g.longitude.length := by
  unfold sampled_pairs
  simp only [List.mem_flatMap, List.mem_map, List.mem_range, Prod.mk.injEq]
  constructor
  · rintro ⟨a, ha, b, hb, rfl, rfl⟩
    exact ⟨ha, hb⟩
  · rintro ⟨hi, hj⟩
    exact ⟨i, hi, j, hj, rfl, rfl⟩

theorem mem_kept_pairs {g : Grid} {v : String} {i j : Nat} :
    (i, j) ∈ kept_pairs g v ↔
      i < strideCount g.latitude.length ∧ j < strideCount g.longitude.length ∧
        nan_to_num (g.data v (20 * i) (20 * j)) > -50 := by
  unfold kept_pairs
  rw [List.mem_filter, mem_sampled_pairs]
  simp [and_assoc]

theorem convert_points_eq (g : Grid) (v : String) :
    convert_points g v = (kept_pairs g v).map (mk_point g v) := by
  unfold convert_points kept_pairs sampled_pairs
  rw [filter_over_flatMap, List.map_flatMap,
    sample20_length g.latitude, sample20_length g.longitude]
  apply List.flatMap_congr
  intro i hi
  rw [List.mem_range] at hi
  rw [filterMap_ite
    (fun j => nan_to_num (g.data v (20 * i) (20 * j)) > -50)
    (fun j => ({ lat := (sample20 g.latitude).getD i 0
                 lon := fixLon ((sample20 g.longitude).getD j 0)
                 value := nan_to_num (g.data v (20 * i) (20 * j)) } : RadarPoint))]
  rw [filter_over_map, List.map_map]
  apply List.map_congr_left
  intro j hj
  have hj2 : j < strideCount g.longitude.length :=
    List.mem_range.mp (List.mem_of_mem_filter hj)
  simp only [Function.comp_apply, mk_point]
  rw [sample20_getD hi, sample20_getD hj2]

theorem find?_first_match {l1 l2 : List String} {v : String}
    (h1 : ∀ u ∈ l1, matchesRefl u = false) (h2 : matchesRefl v = true) :
    (l1 ++ v :: l2).find? matchesRefl = some v := by
  induction l1 with
  | nil => simp [List.find?_cons, h2]
  | cons a as ih =>
    have ha : matchesRefl a = false := h1 a (List.mem_cons_self a as)
    rw [List.cons_append, List.find?_cons_of_neg _ (by simp [ha])]
    exact ih fun u hu => h1 u (List.mem_cons_of_mem a hu)

theorem select_var_of_head_match {l1 l2 : List String} {v : String}
    (h1 : ∀ u ∈ l1, matchesRefl u = false) (h2 : matchesRefl v = true) :
    select_var (l1 ++ v :: l2) = some v := by
  simp [select_var, find?_first_match h1 h2]

theorem select_var_of_no_match {vars : List String}
    (h : ∀ u ∈ vars, matchesRefl u = false) :
    select_var vars = vars.head? := by
  have hf : vars.find? matchesRefl = none := List.find?_eq_none.mpr (by simpa using h)
  simp [select_var, hf]

theorem select_var_ne_none {vars : List String} (h : vars ≠ []) :
    ∃ v, select_var vars = some v := by
  cases hv : vars.find? matchesRefl with
  | some v => exact ⟨v, by simp [select_var, hv]⟩
  | none =>
    cases vars with
    | nil => exact absurd rfl h
    | cons a as => exact ⟨a, by simp [select_var, hv]⟩

theorem sd_cases (att : Nat → AttemptSpec) (file : Option (List Nat)) :
    ((∀ k, k < 3 → attemptErr (att k) ≠ none) ∧
      (safe_download att file).2 = Except.error "Download failed after 3 attempts") ∨
    ((∃ k, k < 3 ∧ attemptErr (att k) = none) ∧
      (safe_download att file).2 = Except.ok ()) := by
  rcases h0 : attemptErr (att 0) with _ | e0
  · exact Or.inr ⟨⟨0, by norm_num, h0⟩, by simp [safe_download, downloadLoop, h0]⟩
  · rcases h1 : attemptErr (att 1) with _ | e1
    · exact Or.inr ⟨⟨1, by norm_num, h1⟩, by simp [safe_download, downloadLoop, h0, h1]⟩
    · rcases h2 : attemptErr (att 2) with _ | e2
      · exact Or.inr ⟨⟨2, by norm_num, h2⟩,
          by simp [safe_download, downloadLoop, h0, h1, h2]⟩
      · refine Or.inl ⟨?_, by simp [safe_download, downloadLoop, h0, h1, h2]⟩
        intro k hk
        interval_cases k <;> simp [h0, h1, h2]

/-! ## Claim theorems -/

/-- C1: in `convert_to_json`, every not-a-number cell value is replaced by
0 before the validity filter runs; a sampled point is kept iff its
post-replacement value is strictly greater than -50; a value of exactly
-50 is excluded; a NaN cell is retained as a point with value 0. The last
conjunct ties the sampled-pair characterization to the point list the
transform actually emits. -/
theorem C1_nan_replacement_and_filter (g : Grid) (v : String) (i j : Nat)
    (hi : i < strideCount g.latitude.length)
    (hj : j < strideCount g.longitude.length) :
    ((i, j) ∈ kept_pairs g v ↔ nan_to_num (g.data v (20 * i) (20 * j)) > -50) ∧
    (g.data v (20 * i) (20 * j) = GVal.nan →
      nan_to_num (g.data v (20 * i) (20 * j)) = 0 ∧ (i, j) ∈ kept_pairs g v) ∧
    (nan_to_num (g.data v (20 * i) (20 * j)) = -50 → (i, j) ∉ kept_pairs g v) ∧
    convert_points g v = (kept_pairs g v).map (mk_point g v) := by
  refine ⟨?_, ?_, ?_, convert_points_eq g v⟩
  · rw [mem_kept_pairs]
    exact ⟨fun h => h.2.2, fun h => ⟨hi, hj, h⟩⟩
  · intro h
    refine ⟨by rw [h]; rfl, mem_kept_pairs.mpr ⟨hi, hj, ?_⟩⟩
    rw [h]
    norm_num [nan_to_num]
  · intro h hmem
    have h2 := (mem_kept_pairs.mp hmem).2.2
    rw [h] at h2
    exact absurd h2 (by norm_num)

/-- Witness for C1: in a one-cell grid whose cell is NaN, the sampled cell
is replaced by 0 and retained. -/
theorem C1_witness :
    nan_to_num ((mkTestGrid GVal.nan).data "DZ_LOWALT" 0 0) = 0 ∧
    (0, 0) ∈ kept_pairs (mkTestGrid GVal.nan) "DZ_LOWALT" :=
  (C1_nan_replacement_and_filter (mkTestGrid GVal.nan) "DZ_LOWALT" 0 0
    (by decide) (by decide)).2.1 rfl

/-- C2 counterexample: the claim says every processed raw longitude yields
a normalized longitude in [-180, 180); on a grid whose raw longitude is
exactly 180 the transform emits a point with longitude 180, which is not
strictly below 180. -/
theorem C2_counterexample :
    convert_points g180 "DZ_LOWALT" = [{ lat := 10, lon := 180, value := 5 }] ∧
    ¬ ((180 : ℚ) < 180) :=
  ⟨by decide, by norm_num⟩

/-- C2 (amended): the normalized longitude equals `lo - 360` when
`lo > 180` and `lo` otherwise; the normalized value lies in [-180, 180)
provided the raw longitude lies in [-180, 540) and differs from 180 (a raw
longitude of exactly 180 is left at 180, outside the half-open range); and
every longitude the transform emits is the normalization of a raw
longitude of the grid. -/
theorem C2_longitude_amended (g : Grid) (v : String) (lo : ℚ) :
    fixLon lo = (if lo > 180 then lo - 360 else lo) ∧
    (-180 ≤ lo → lo < 540 → lo ≠ 180 → -180 ≤ fixLon lo ∧ fixLon lo < 180) ∧
    (∀ p ∈ convert_points g v, ∃ lo2 ∈ g.longitude, p.lon = fixLon lo2) := by
  refine ⟨rfl, ?_, ?_⟩
  · intro h1 h2 h3
    unfold fixLon
    by_cases h : lo > 180
    · rw [if_pos h]
      constructor <;> linarith
    · rw [if_neg h]
      push_neg at h
      exact ⟨h1, lt_of_le_of_ne h h3⟩
  · intro p hp
    rw [convert_points_eq] at hp
    rcases List.mem_map.mp hp with ⟨⟨a, b⟩, hab, rfl⟩
    have hb := (mem_kept_pairs.mp hab).2.1
    exact ⟨g.longitude.getD (20 * b) 0, getD_mem (strideCount_mul_lt hb), rfl⟩

/-- Witness for the amended C2 at the concrete raw longitude 190. -/
theorem C2_witness :
    -180 ≤ fixLon 190 ∧ fixLon 190 < 180 :=
  (C2_longitude_amended (mkTestGrid (GVal.num 5)) "DZ_LOWALT" 190).2.1
    (by norm_num) (by norm_num) (by norm_num)

/-- C8: the transform samples every 20th cell along each of the two
dimensions starting at index 0 and emits the retained points in row-major
order (sampled latitude index outer, sampled longitude index inner): the
emitted list equals the specification-side list `spec_points`, the
row-major rendering of the filtered stride-20 index pairs. Reproducibility
across runs is immediate: `convert_points` is a pure function of the
grid. -/
theorem C8_downsampling_order (g : Grid) (v : String) :
    convert_points g v = spec_points g v := by
  rw [spec_points]
  exact convert_points_eq g v

/-- Witness for C8: on a concrete one-cell grid the two descriptions agree
and evaluate to the expected single point. -/
theorem C8_witness :
    convert_points (mkTestGrid (GVal.num 5)) "DZ_LOWALT" =
      spec_points (mkTestGrid (GVal.num 5)) "DZ_LOWALT" ∧
    convert_points (mkTestGrid (GVal.num 5)) "DZ_LOWALT" =
      [{ lat := 10, lon := -170, value := 5 }] := by
  refine ⟨C8_downsampling_order (mkTestGrid (GVal.num 5)) "DZ_LOWALT", ?_⟩
  norm_num [convert_points, sample20, strideCount, mkTestGrid, nan_to_num, fixLon,
    List.range_succ, List.filterMap_cons, List.filterMap_nil, RadarPoint.mk.injEq]

/-- C10: a positive-infinity cell is mapped by `nan_to_num` to the largest
finite double and retained by the filter; a negative-infinity cell is
mapped to its negation and dropped by the -50 filter; and every value the
transform emits is the `nan_to_num` image of some sampled cell (hence a
finite rational - infinities are never emitted). -/
theorem C10_infinity_handling (g : Grid) (v : String) (i j : Nat)
    (hi : i < strideCount g.latitude.length)
    (hj : j < strideCount g.longitude.length) :
    (g.data v (20 * i) (20 * j) = GVal.posInf →
      nan_to_num (g.data v (20 * i) (20 * j)) = FLOAT64_MAX ∧
        (i, j) ∈ kept_pairs g v) ∧
    (g.data v (20 * i) (20 * j) = GVal.negInf → (i, j) ∉ kept_pairs g v) ∧
    (∀ p ∈ convert_points g v, ∃ a b,
      a < strideCount g.latitude.length ∧ b < strideCount g.longitude.length ∧
        p.value = nan_to_num (g.data v (20 * a) (20 * b))) := by
  have hmax : (50 : ℚ) < FLOAT64_MAX := by norm_num [FLOAT64_MAX]
  refine ⟨?_, ?_, ?_⟩
  · intro h
    refine ⟨by rw [h]; rfl, mem_kept_pairs.mpr ⟨hi, hj, ?_⟩⟩
    rw [h]
    show -50 < nan_to_num GVal.posInf
    simp only [nan_to_num]
    linarith
  · intro h hmem
    have h2 := (mem_kept_pairs.mp hmem).2.2
    rw [h] at h2
    simp only [nan_to_num] at h2
    linarith
  · intro p hp
    rw [convert_points_eq] at hp
    rcases List.mem_map.mp hp with ⟨⟨a, b⟩, hab, rfl⟩
    have hb := mem_kept_pairs.mp hab
    exact ⟨a, b, hb.1, hb.2.1, rfl⟩

/-- Witness for C10: a positive-infinity cell is retained, a
negative-infinity cell is dropped. -/
theorem C10_witness :
    ((0, 0) ∈ kept_pairs (mkTestGrid GVal.posInf) "DZ_LOWALT") ∧
    ((0, 0) ∉ kept_pairs (mkTestGrid GVal.negInf) "DZ_LOWALT") :=
  ⟨((C10_infinity_handling (mkTestGrid GVal.posInf) "DZ_LOWALT" 0 0
      (by decide) (by decide)).1 rfl).2,
    (C10_infinity_handling (mkTestGrid GVal.negInf) "DZ_LOWALT" 0 0
      (by decide) (by decide)).2.1 rfl⟩

/-- C3: the cache gate refetches iff the decoded file is absent or its age
is at least 900 seconds; when the file exists with age strictly below 900
seconds the cached file is used and no fetch or extraction occurs. -/
theorem C3_cache_gate (fileExists : Bool) (age : ℚ) :
    (download_and_extract fileExists age = CacheAction.refetch ↔
      (fileExists = false ∨ 900 ≤ age)) ∧
    (download_and_extract fileExists age = CacheAction.useCache ↔
      (fileExists = true ∧ age < 900)) := by
  cases fileExists with
  | false => simp [download_and_extract]
  | true =>
    by_cases h : age < 900
    · simp [download_and_extract, h, not_le.mpr h]
    · simp [download_and_extract, h, not_lt.mp h]

/-- Witness for C3 at concrete ages: a 100-second-old file is reused, a
900-second-old file and an absent file trigger a refetch. -/
theorem C3_witness :
    download_and_extract true 100 = CacheAction.useCache ∧
    download_and_extract true 900 = CacheAction.refetch ∧
    download_and_extract false 0 = CacheAction.refetch :=
  ⟨(C3_cache_gate true 100).2.mpr ⟨rfl, by norm_num⟩,
    (C3_cache_gate true 900).1.mpr (Or.inr (by norm_num)),
    (C3_cache_gate false 0).1.mpr (Or.inl rfl)⟩

/-- C4 counterexample: after 3 consecutive transport failures the raised
error is the fixed message `"Download failed after 3 attempts"`; it does
not carry the last underlying failure - two attempt streams whose failures
differ (`"boom"` vs `"crash"`) raise the identical error. -/
theorem C4_counterexample :
    (safe_download attBoom none).2 = Except.error "Download failed after 3 attempts" ∧
    (safe_download attCrash none).2 = Except.error "Download failed after 3 attempts" ∧
    ("Download failed after 3 attempts" : String) ≠ "boom" ∧
    ("Download failed after 3 attempts" : String) ≠ "crash" :=
  ⟨rfl, rfl, by decide, by decide⟩

/-- C4 (amended): the fetcher makes at most 3 attempts (its result depends
only on the first 3 attempt behaviours), raises iff all 3 attempts fail,
returns success as soon as some of the first 3 attempts succeeds, and the
raised error is always the fixed message `"Download failed after 3
attempts"` (it does not carry the last underlying failure). -/
theorem C4_retry_amended (att att2 : Nat → AttemptSpec) (file : Option (List Nat)) :
    ((∀ k, k < 3 → att2 k = att k) → safe_download att2 file = safe_download att file) ∧
    ((∀ k, k < 3 → attemptErr (att k) ≠ none) →
      (safe_download att file).2 = Except.error "Download failed after 3 attempts") ∧
    ((∃ k, k < 3 ∧ attemptErr (att k) = none) →
      (safe_download att file).2 = Except.ok ()) ∧
    (∀ s, (safe_download att file).2 = Except.error s →
      s = "Download failed after 3 attempts") := by
  refine ⟨?_, ?_, ?_, ?_⟩
  · intro h
    have e0 := h 0 (by norm_num)
    have e1 := h 1 (by norm_num)
    have e2 := h 2 (by norm_num)
    simp [safe_download, downloadLoop, e0, e1, e2]
  · intro h
    rcases sd_cases att file with ⟨_, hres⟩ | ⟨⟨k, hk, hnone⟩, _⟩
    · exact hres
    · exact absurd hnone (h k hk)
  · rintro ⟨k, hk, hnone⟩
    rcases sd_cases att file with ⟨hall, _⟩ | ⟨_, hres⟩
    · exact absurd hnone (hall k hk)
    · exact hres
  · intro s hs
    rcases sd_cases att file with ⟨_, hres⟩ | ⟨_, hres⟩
    · have h2 := hres.symm.trans hs
      injection h2 with h3
      exact h3.symm
    · exact absurd (hres.symm.trans hs) (by simp)

/-- Witness for the amended C4: a stream of 3 connection failures yields
the fixed error. -/
theorem C4_witness :
    (safe_download attBoom none).2 = Except.error "Download failed after 3 attempts" :=
  (C4_retry_amended attBoom attBoom none).2.1 (fun k _ => by simp [attBoom, attemptErr])

/-- C5 counterexample: starting from a previously valid destination file
`[7, 7, 7]`, a first attempt that truncates the destination, writes the
partial prefix `[1]` and fails mid-stream, followed by two connection
failures, leaves the destination as `[1]`: the failed refetch truncated
and partially overwrote the previously good file. -/
theorem C5_counterexample :
    safe_download attPartial (some [7, 7, 7]) =
      (some [1], Except.error "Download failed after 3 attempts") ∧
    some [1] ≠ some [7, 7, 7] :=
  ⟨rfl, by decide⟩

/-- C5 (amended): when all 3 attempts fail before opening the destination
(connection or status failures), the destination file is left unchanged;
but an attempt that fails mid-stream overwrites the destination with the
partial prefix it wrote - shown for a first attempt failing mid-stream
followed by two connection failures. -/
theorem C5_fetch_failure_amended (att : Nat → AttemptSpec) (file : Option (List Nat)) :
    ((∀ k, k < 3 → ∃ e, att k = AttemptSpec.connectFail e) →
      safe_download att file = (file, Except.error "Download failed after 3 attempts")) ∧
    (∀ w e, att 0 = AttemptSpec.streamFail w e →
      (∀ k, k < 3 → 0 < k → ∃ e2, att k = AttemptSpec.connectFail e2) →
      safe_download att file = (some w, Except.error "Download failed after 3 attempts")) := by
  constructor
  · intro h
    obtain ⟨e0, h0⟩ := h 0 (by norm_num)
    obtain ⟨e1, h1⟩ := h 1 (by norm_num)
    obtain ⟨e2, h2⟩ := h 2 (by norm_num)
    simp [safe_download, downloadLoop, h0, h1, h2, attemptErr, attemptFile]
  · intro w e h0 hrest
    obtain ⟨e1, h1⟩ := hrest 1 (by norm_num) (by norm_num)
    obtain ⟨e2, h2⟩ := hrest 2 (by norm_num) (by norm_num)
    simp [safe_download, downloadLoop, h0, h1, h2, attemptErr, attemptFile]

/-- Witness for the amended C5 at the concrete attempt stream
`attPartial` and previous destination content `[7, 7, 7]`. -/
theorem C5_witness :
    safe_download attPartial (some [7, 7, 7]) =
      (some [1], Except.error "Download failed after 3 attempts") :=
  (C5_fetch_failure_amended attPartial (some [7, 7, 7])).2 [1] "IncompleteRead" rfl
    (fun k _ hpos => by
      match k, hpos with
      | 1, _ => exact ⟨"ConnectionError", rfl⟩
      | 2, _ => exact ⟨"ConnectionError", rfl⟩
      | k + 3, _ => exact ⟨"ConnectionError", rfl⟩)

/-- C6: variable selection picks the first name containing the
case-sensitive substring `"Reflectivity"` or `"DZ"`; with no match it
falls back to the first name in insertion order; with an empty variable
set the transform fails (the eagerly evaluated fallback raises
`IndexError("list index out of range")`, surfaced as the error of the
transform). The two concrete conjuncts are the worked examples of the
spec. -/
theorem C6_variable_selection (g : Grid) (vars l1 l2 : List String) (v : String) :
    (g.data_vars = [] →
      ∀ persist, convert_to_json g persist = Except.error "list index out of range") ∧
    ((∀ u ∈ l1, matchesRefl u = false) → matchesRefl v = true →
      select_var (l1 ++ v :: l2) = some v) ∧
    ((∀ u ∈ vars, matchesRefl u = false) → select_var vars = vars.head?) ∧
    select_var ["TMP", "DZ_LOWALT"] = some "DZ_LOWALT" ∧
    select_var ["TMP", "PRES"] = some "TMP" := by
  refine ⟨?_, fun h1 h2 => select_var_of_head_match h1 h2,
    fun h => select_var_of_no_match h, by decide, by decide⟩
  intro h persist
  simp [convert_to_json, select_var, h]

/-- Witness for C6: the empty-variable grid makes the transform fail, and
the spec example `["TMP", "DZ_LOWALT"]` selects `"DZ_LOWALT"`. -/
theorem C6_witness :
    convert_to_json gEmptyVars (Except.ok ()) = Except.error "list index out of range" ∧
    select_var (["TMP"] ++ "DZ_LOWALT" :: []) = some "DZ_LOWALT" :=
  ⟨(C6_variable_selection gEmptyVars [] [] [] "").1 rfl (Except.ok ()),
    (C6_variable_selection gEmptyVars [] ["TMP"] [] "DZ_LOWALT").2.1
      (by decide) (by decide)⟩

/-- C7 counterexample: when persisting the payload fails, the transform
does not return the payload - the persist error propagates and the request
answers with status 500 (the `json.dump` call on lines 113-114 is not
guarded by any exception handler). -/
theorem C7_counterexample :
    convert_to_json (mkTestGrid (GVal.num 5)) (Except.error "No space left on device") =
      Except.error "No space left on device" ∧
    (get_radar (convert_to_json (mkTestGrid (GVal.num 5))
      (Except.error "No space left on device"))).status = 500 :=
  ⟨rfl, rfl⟩

/-- C7 (amended): persisting the payload is not best-effort - a persist
failure propagates out of the transform and fails the request with that
error; the payload is returned (with status 200) exactly when persistence
succeeds. -/
theorem C7_persist_amended (g : Grid) (e : String) (h : g.data_vars ≠ []) :
    (convert_to_json g (Except.error e) = Except.error e ∧
      get_radar (convert_to_json g (Except.error e)) =
        { status := 500, payload := none, error := some e }) ∧
    (∃ d, convert_to_json g (Except.ok ()) = Except.ok d ∧
      get_radar (convert_to_json g (Except.ok ())) =
        { status := 200, payload := some d, error := none }) := by
  obtain ⟨v, hv⟩ := select_var_ne_none h
  constructor
  · have hc : convert_to_json g (Except.error e) = Except.error e := by
      simp [convert_to_json, hv]
    exact ⟨hc, by rw [hc]; rfl⟩
  · simp only [convert_to_json, hv]
    exact ⟨_, rfl, rfl⟩

/-- Witness for the amended C7 at a concrete grid and persist error. -/
theorem C7_witness :
    convert_to_json (mkTestGrid (GVal.num 5)) (Except.error "disk full") =
      Except.error "disk full" :=
  ((C7_persist_amended (mkTestGrid (GVal.num 5)) "disk full" (by decide)).1).1

/-- C9: timestamp extraction never fails the transform. With no time
coordinate the timestamp is the empty string; when rendering the time
value raises, the best-effort fallback rendering is used; and the
transform succeeds for every time coordinate, its payload carrying the
extracted timestamp. -/
theorem C9_timestamp_nonfatal (g : Grid) (t : TimeCoord) (e s : String)
    (h : g.data_vars ≠ []) :
    timestampOf none = "" ∧
    (t.item_val = Except.error e → timestampOf (some t) = t.fallback_val) ∧
    (t.item_val = Except.ok s → timestampOf (some t) = s) ∧
    (∃ d, convert_to_json g (Except.ok ()) = Except.ok d ∧
      d.timestamp = timestampOf g.time) := by
  obtain ⟨v, hv⟩ := select_var_ne_none h
  refine ⟨rfl, ?_, ?_, ?_⟩
  · intro ht
    simp [timestampOf, ht]
  · intro ht
    simp [timestampOf, ht]
  · simp only [convert_to_json, hv]
    exact ⟨_, rfl, rfl⟩

/-- Witness for C9: a grid whose time rendering raises still transforms
successfully, with the fallback timestamp. -/
theorem C9_witness :
    timestampOf gTime.time = "fallback-ts" ∧
    (∃ d, convert_to_json gTime (Except.ok ()) = Except.ok d ∧
      d.timestamp = timestampOf gTime.time) := by
  have h := C9_timestamp_nonfatal gTime
    { item_val := Except.error "boom2", fallback_val := "fallback-ts" } "boom2" ""
    (by decide)
  exact ⟨h.2.1 rfl, h.2.2.2⟩

end Radar
